import Mathlib

/-!
Shallow embedding of the clinica-dental-irma-moreno browser scripts:
the mobile navigation component (an IIFE binding click/keydown/resize
listeners and mutating CSS classes, an ARIA attribute and the body
overflow style) and the stateless DOM utility helpers in js/utils.js.

DOM state touched by the navigation component is modelled explicitly as
a record of the four reflections of the "menu open" flag plus a flag
recording whether the script moved focus to the toggle control.
Timer-based behaviour (the 250ms resize debounce and the generic
debounce helper) is modelled by an explicit schedule over timestamped
call lists: each call clears the pending timer and arms a new one, and
a pending timer fires when no later call arrives before its deadline.
-/

/-- DOM-reflected state of the mobile navigation menu: whether the menu
element carries class nav__list--open, whether the toggle element carries
class nav__toggle--open, the string value of the aria-expanded attribute on
the toggle, the inline body overflow style, and whether the script has moved
keyboard focus to the toggle control. -/
structure NavState where
  menuOpen : Bool
  toggleOpen : Bool
  ariaExpanded : String
  bodyOverflow : String
  focusOnToggle : Bool
  deriving DecidableEq, Repr

/-- The page-load state: no modifier classes, aria-expanded "false",
no inline overflow, focus not on the toggle. -/
def initState : NavState :=
  ⟨false, false, "false", "", false⟩

/-- toggleMenu from the navigation script: classList.toggle on the menu
returns the new presence of nav__list--open (isOpen); the toggle class is
toggled independently; aria-expanded is set to the stringified isOpen; body
overflow becomes "hidden" when open and "" otherwise. -/
def toggleMenu (s : NavState) : NavState :=
  let isOpen := !s.menuOpen
  { s with
    menuOpen := isOpen
    toggleOpen := !s.toggleOpen
    ariaExpanded := if isOpen then "true" else "false"
    bodyOverflow := if isOpen then "hidden" else "" }

/-- closeMenu from the navigation script: remove both modifier classes, set
aria-expanded to "false", clear the body overflow style. Focus is untouched. -/
def closeMenu (s : NavState) : NavState :=
  { s with
    menuOpen := false
    toggleOpen := false
    ariaExpanded := "false"
    bodyOverflow := "" }

/-- The navigation events the bound listeners react to: a click on the
toggle control, a click on a nav link, a click outside the nav region, a
keydown with the given key, and the debounced resize callback firing while
window.innerWidth is the given value. -/
inductive NavEvent where
  | toggleClick
  | navLinkClick
  | outsideClick
  | keydown (key : String)
  | resizeSettled (width : Nat)
  deriving DecidableEq, Repr

/-- One step of the navigation component, following the handlers bound in
init: the toggle click runs toggleMenu; a nav-link click runs closeMenu; the
document click handler runs closeMenu only when the target is outside the
nav and the menu is open; the keydown handler runs closeMenu and focuses the
toggle only for key "Escape" while the menu is open; the debounced resize
callback runs closeMenu only when the width is at least 768 and the menu is
open. -/
def navStep (e : NavEvent) (s : NavState) : NavState :=
  match e with
  | .toggleClick => toggleMenu s
  | .navLinkClick => closeMenu s
  | .outsideClick => if s.menuOpen = true then closeMenu s else s
  | .keydown k =>
      if k = "Escape" ∧ s.menuOpen = true then
        { closeMenu s with focusOnToggle := true }
      else s
  | .resizeSettled w =>
      if 768 ≤ w ∧ s.menuOpen = true then closeMenu s else s

/-- Run a sequence of navigation events from a state. -/
def runEvents (evts : List NavEvent) (s : NavState) : NavState :=
  evts.foldl (fun st e => navStep e st) s

/-- The agreement invariant of the spec: the menu class, the toggle class,
the aria-expanded attribute and the body scroll lock all reflect the same
boolean. -/
def Invariant (s : NavState) : Prop :=
  (s.menuOpen = true ↔ s.toggleOpen = true) ∧
  (s.menuOpen = true ↔ s.ariaExpanded = "true") ∧
  (s.menuOpen = true ↔ s.bodyOverflow = "hidden")

/-- getBreakpoint from js/utils.js, as a function of window.innerWidth. -/
def getBreakpoint (width : Nat) : String :=
  if width < 768 then "mobile"
  else if width < 1024 then "tablet"
  else "desktop"

/-- Timed semantics shared by Utils.debounce(func, wait) and the inline
resize debounce of the navigation script: the input is the list of wrapper
calls in time order, each a timestamp paired with the captured arguments.
Every call clears the pending timer and arms a new one for its own
timestamp plus wait; a pending timer is cancelled exactly when the next
call arrives strictly before its deadline. The result lists the timer
firings: firing time paired with the arguments of the call that armed it. -/
def debounceSchedule (wait : Nat) : List (Nat × α) → List (Nat × α)
  | [] => []
  | [(t, a)] => [(t + wait, a)]
  | (t, a) :: (t', a') :: rest =>
      if t' < t + wait then debounceSchedule wait ((t', a') :: rest)
      else (t + wait, a) :: debounceSchedule wait ((t', a') :: rest)

/-- The debounced resize handling of the navigation script: resize events
arrive at the given times; the inline debounce (wait 250) decides which
timer callbacks fire; each firing callback reads window.innerWidth at its
firing time (widthAt) and closes the menu only when that width is at least
768 and the menu is open. -/
def navResizeRun (widthAt : Nat → Nat) (times : List Nat) (s : NavState) : NavState :=
  (debounceSchedule 250 (times.map (fun t => (t, ())))).foldl
    (fun st p => navStep (NavEvent.resizeSettled (widthAt p.1)) st) s

/-- The listeners init binds when both the toggle and the list element are
found: the toggle click handler, one close handler per nav link, the
document click (outside-click) handler, the document keydown handler and
the window resize handler. -/
inductive Listener where
  | toggleClick
  | navLinkClick (i : Nat)
  | documentClick
  | documentKeydown
  | windowResize
  deriving DecidableEq, Repr

/-- Which of the nav, toggle and list elements querySelector finds at
initialization, and how many nav links the menu contains. -/
structure PageDom where
  hasNav : Bool
  hasToggle : Bool
  hasList : Bool
  navLinkCount : Nat
  deriving DecidableEq, Repr

/-- init from the navigation script: when the toggle or the list element is
missing it returns immediately, binding nothing; otherwise it binds the
toggle click listener, a click listener on each nav link, and the document
click, document keydown and window resize listeners. Absence of elements is
an ordinary early return, not an exception (the model is a total function). -/
def init (d : PageDom) : List Listener :=
  if !d.hasToggle || !d.hasList then []
  else
    Listener.toggleClick ::
      ((List.range d.navLinkCount).map Listener.navLinkClick ++
        [Listener.documentClick, Listener.documentKeydown, Listener.windowResize])

/-- The reaction of a single bound listener to a navigation event; a
listener leaves the state unchanged on events it is not bound to. -/
def listenerStep (l : Listener) (e : NavEvent) (s : NavState) : NavState :=
  match l, e with
  | .toggleClick, .toggleClick => toggleMenu s
  | .navLinkClick _, .navLinkClick => closeMenu s
  | .documentClick, .outsideClick => if s.menuOpen = true then closeMenu s else s
  | .documentKeydown, .keydown k =>
      if k = "Escape" ∧ s.menuOpen = true then
        { closeMenu s with focusOnToggle := true }
      else s
  | .windowResize, .resizeSettled w =>
      if 768 ≤ w ∧ s.menuOpen = true then closeMenu s else s
  | _, _ => s

/-- Deliver one navigation event to every listener init bound on the page. -/
def dispatch (d : PageDom) (e : NavEvent) (s : NavState) : NavState :=
  (init d).foldl (fun st l => listenerStep l e st) s

/-- The browser facts copyToClipboard depends on: whether
navigator.clipboard exists, the outcome of navigator.clipboard.writeText,
and the outcome of document.execCommand with the copy command — either a
thrown error, or a returned boolean, false meaning the copy failed without
throwing. -/
structure ClipEnv where
  clipboardAvailable : Bool
  writeTextResult : Except String Unit
  execCommandResult : Except String Bool
  deriving Repr

/-- DOM side effects of the execCommand fallback path: the value the
temporary textarea was created with (none when the path was not taken), and
whether the textarea was removed from the document again. -/
structure ClipEffects where
  textareaValue : Option String
  textareaRemoved : Bool
  deriving DecidableEq, Repr

/-- copyToClipboard from js/utils.js: with navigator.clipboard present it
returns the writeText promise unchanged and touches no DOM; otherwise it
appends a hidden textarea holding the text, runs execCommand inside
try/catch, and removes the textarea before resolving (when execCommand
returns, its boolean result being discarded as in the source) respectively
rejecting with the thrown error (when execCommand throws). -/
def copyToClipboard (env : ClipEnv) (text : String) : Except String Unit × ClipEffects :=
  if env.clipboardAvailable then
    (env.writeTextResult, ⟨none, false⟩)
  else
    match env.execCommandResult with
    | .ok _ => (Except.ok (), ⟨some text, true⟩)
    | .error err => (Except.error err, ⟨some text, true⟩)

instance instInvariantDecidable (s : NavState) : Decidable (Invariant s) := by
  unfold Invariant
  infer_instance

theorem closeMenu_establishes_invariant (s : NavState) : Invariant (closeMenu s) := by
  unfold Invariant closeMenu
  simp

theorem toggleMenu_preserves_invariant (s : NavState) (h : Invariant s) :
    Invariant (toggleMenu s) := by
  obtain ⟨h1, _, _⟩ := h
  unfold Invariant toggleMenu
  cases hm : s.menuOpen with
  | false =>
      have ht : s.toggleOpen = false := by
        cases hto : s.toggleOpen
        · rfl
        · exact absurd (h1.mpr hto) (by simp [hm])
      simp [hm, ht]
  | true =>
      have ht : s.toggleOpen = true := h1.mp hm
      simp [hm, ht]

theorem navStep_preserves_invariant (e : NavEvent) (s : NavState) (h : Invariant s) :
    Invariant (navStep e s) := by
  cases e with
  | toggleClick => exact toggleMenu_preserves_invariant s h
  | navLinkClick => exact closeMenu_establishes_invariant s
  | outsideClick =>
      simp only [navStep]
      split
      · exact closeMenu_establishes_invariant s
      · exact h
  | keydown k =>
      simp only [navStep]
      split
      · simp [Invariant, closeMenu]
      · exact h
  | resizeSettled w =>
      simp only [navStep]
      split
      · exact closeMenu_establishes_invariant s
      · exact h

theorem runEvents_preserves_invariant :
    ∀ (evts : List NavEvent) (s : NavState), Invariant s → Invariant (runEvents evts s)
  | [], _, h => h
  | e :: tl, s, h =>
      runEvents_preserves_invariant tl (navStep e s) (navStep_preserves_invariant e s h)

theorem initState_invariant : Invariant initState := by
  unfold Invariant initState
  simp

/-- C1: starting from the initial closed page state, after any sequence of
navigation events (toggle clicks, nav-link clicks, outside clicks, keydowns
and debounced resizes) the four reflections of the menu state agree: the
menu has class nav__list--open iff the toggle has class nav__toggle--open
iff aria-expanded is "true" iff body overflow is "hidden". Since every
prefix of a sequence is itself a sequence, the invariant holds after each
individual transition. -/
theorem nav_reflections_agree (evts : List NavEvent) :
    Invariant (runEvents evts initState) :=
  runEvents_preserves_invariant evts initState initState_invariant

/-- C2: clicking the toggle in the Closed state of the machine (reflections
agreeing, menu class absent) adds the open class to the menu and to the
toggle, sets aria-expanded to "true" and locks body scroll; closeMenu, from
any state, removes both classes, sets aria-expanded to "false" and restores
body overflow to the empty string. -/
theorem toggleMenu_opens_closeMenu_closes (s : NavState) :
    (Invariant s → s.menuOpen = false →
      (toggleMenu s).menuOpen = true ∧ (toggleMenu s).toggleOpen = true ∧
      (toggleMenu s).ariaExpanded = "true" ∧ (toggleMenu s).bodyOverflow = "hidden") ∧
    ((closeMenu s).menuOpen = false ∧ (closeMenu s).toggleOpen = false ∧
      (closeMenu s).ariaExpanded = "false" ∧ (closeMenu s).bodyOverflow = "") := by
  constructor
  · intro h hm
    obtain ⟨h1, _, _⟩ := h
    have ht : s.toggleOpen = false := by
      cases hto : s.toggleOpen
      · rfl
      · exact absurd (h1.mpr hto) (by simp [hm])
    simp [toggleMenu, hm, ht]
  · simp [closeMenu]

/-- Witness for C2 at the initial state. -/
theorem toggleMenu_opens_closeMenu_closes_witness :
    ((toggleMenu initState).menuOpen = true ∧ (toggleMenu initState).toggleOpen = true ∧
      (toggleMenu initState).ariaExpanded = "true" ∧
      (toggleMenu initState).bodyOverflow = "hidden") ∧
    ((closeMenu initState).menuOpen = false ∧ (closeMenu initState).toggleOpen = false ∧
      (closeMenu initState).ariaExpanded = "false" ∧ (closeMenu initState).bodyOverflow = "") :=
  ⟨(toggleMenu_opens_closeMenu_closes initState).1 (by decide) rfl,
   (toggleMenu_opens_closeMenu_closes initState).2⟩

/-- C3 counterexample: from a closed state whose aria-expanded attribute
holds an arbitrary value ("initial") and whose body overflow is "auto",
running toggleMenu twice does not restore aria-expanded (it becomes
"false") nor body overflow (it becomes ""), so not all four components
return to their original values. -/
theorem toggleMenu_twice_cex :
    (toggleMenu (toggleMenu ⟨false, false, "initial", "auto", false⟩)).ariaExpanded ≠
        (NavState.mk false false "initial" "auto" false).ariaExpanded ∧
      (toggleMenu (toggleMenu ⟨false, false, "initial", "auto", false⟩)).bodyOverflow ≠
        (NavState.mk false false "initial" "auto" false).bodyOverflow := by
  decide

/-- C3 amended: running toggleMenu twice always restores the two class
components (menu class and toggle class); aria-expanded and body overflow
end at the canonical values dictated by the original menu class, so they
are restored exactly when they already held those canonical values — in
particular toggling twice is the identity on every state whose
aria-expanded and overflow agree with the menu class. -/
theorem toggleMenu_twice_restores (s : NavState) :
    (toggleMenu (toggleMenu s)).menuOpen = s.menuOpen ∧
    (toggleMenu (toggleMenu s)).toggleOpen = s.toggleOpen ∧
    (toggleMenu (toggleMenu s)).ariaExpanded = (if s.menuOpen then "true" else "false") ∧
    (toggleMenu (toggleMenu s)).bodyOverflow = (if s.menuOpen then "hidden" else "") ∧
    (s.ariaExpanded = (if s.menuOpen then "true" else "false") →
      s.bodyOverflow = (if s.menuOpen then "hidden" else "") →
      toggleMenu (toggleMenu s) = s) := by
  obtain ⟨mo, tg, ar, ov, f⟩ := s
  cases mo <;> simp [toggleMenu] <;> intro h1 h2 <;> simp [h1, h2]

/-- Witness for C3 amended: at the open state reached from the initial
state, toggling twice is the identity. -/
theorem toggleMenu_twice_restores_witness :
    toggleMenu (toggleMenu (toggleMenu initState)) = toggleMenu initState :=
  ((((toggleMenu_twice_restores (toggleMenu initState)).2).2).2).2 (by decide) (by decide)

/-- C4: a keydown with key "Escape" while the menu class is present closes
the menu fully (both open classes removed, aria-expanded "false", body
overflow cleared) and moves focus to the toggle control; while the menu
class is absent, Escape leaves the whole state unchanged and in particular
does not move focus. -/
theorem escape_closes_and_focuses (s : NavState) :
    (s.menuOpen = true →
      navStep (NavEvent.keydown "Escape") s = { closeMenu s with focusOnToggle := true } ∧
      (navStep (NavEvent.keydown "Escape") s).menuOpen = false ∧
      (navStep (NavEvent.keydown "Escape") s).toggleOpen = false ∧
      (navStep (NavEvent.keydown "Escape") s).ariaExpanded = "false" ∧
      (navStep (NavEvent.keydown "Escape") s).bodyOverflow = "" ∧
      (navStep (NavEvent.keydown "Escape") s).focusOnToggle = true) ∧
    (s.menuOpen = false → navStep (NavEvent.keydown "Escape") s = s) := by
  constructor
  · intro hm
    simp [navStep, hm, closeMenu]
  · intro hm
    simp [navStep, hm]

/-- Witness for C4: Escape on the open state reached from the initial state
closes it and focuses the toggle; Escape on the initial closed state is the
identity. -/
theorem escape_closes_and_focuses_witness :
    navStep (NavEvent.keydown "Escape") (toggleMenu initState) =
        { closeMenu (toggleMenu initState) with focusOnToggle := true } ∧
      navStep (NavEvent.keydown "Escape") initState = initState :=
  ⟨((escape_closes_and_focuses (toggleMenu initState)).1 (by decide)).1,
   (escape_closes_and_focuses initState).2 rfl⟩

/-- C9: getBreakpoint returns "mobile" exactly below width 768, "tablet"
exactly from 768 up to below 1024, and "desktop" exactly from 1024 on; in
particular it returns "mobile" at 500, "tablet" at 800 and "desktop" at
1200. -/
theorem getBreakpoint_classification (w : Nat) :
    (getBreakpoint w = "mobile" ↔ w < 768) ∧
    (getBreakpoint w = "tablet" ↔ 768 ≤ w ∧ w < 1024) ∧
    (getBreakpoint w = "desktop" ↔ 1024 ≤ w) ∧
    getBreakpoint 500 = "mobile" ∧ getBreakpoint 800 = "tablet" ∧
    getBreakpoint 1200 = "desktop" := by
  have hmt : ("mobile" : String) ≠ "tablet" := by decide
  have hmd : ("mobile" : String) ≠ "desktop" := by decide
  have htd : ("tablet" : String) ≠ "desktop" := by decide
  refine ⟨?_, ?_, ?_, by decide, by decide, by decide⟩ <;>
    · by_cases h1 : w < 768 <;> by_cases h2 : w < 1024 <;>
        simp [getBreakpoint, h1, h2, hmt, hmd, htd, hmt.symm, hmd.symm, htd.symm] <;> omega

/-- C10: closeMenu is idempotent and from every state yields the canonical
closed state: menu class absent, toggle class absent, aria-expanded
"false", body overflow empty. -/
theorem closeMenu_idempotent_canonical (s : NavState) :
    closeMenu (closeMenu s) = closeMenu s ∧
    (closeMenu s).menuOpen = false ∧ (closeMenu s).toggleOpen = false ∧
    (closeMenu s).ariaExpanded = "false" ∧ (closeMenu s).bodyOverflow = "" :=
  ⟨rfl, rfl, rfl, rfl, rfl⟩

theorem debounceSchedule_dense {α : Type} (wait : Nat) (p : Nat × α) :
    ∀ l : List (Nat × α),
      List.Chain' (fun x y => y.1 < x.1 + wait) (l ++ [p]) →
      debounceSchedule wait (l ++ [p]) = [(p.1 + wait, p.2)] := by
  intro l
  induction l with
  | nil =>
      intro _
      obtain ⟨t, a⟩ := p
      simp [debounceSchedule]
  | cons q l ih =>
      intro hchain
      obtain ⟨tq, aq⟩ := q
      cases l with
      | nil =>
          obtain ⟨tp, ap⟩ := p
          have h1 : tp < tq + wait := by
            simpa using List.chain'_pair.mp hchain
          simp [debounceSchedule, h1]
      | cons r l' =>
          obtain ⟨tr, ar⟩ := r
          have hcons := List.chain'_cons.mp hchain
          have h1 : tr < tq + wait := hcons.1
          have htail := hcons.2
          have heq :
              debounceSchedule wait (((tq, aq) :: (tr, ar) :: l') ++ [p]) =
                debounceSchedule wait (((tr, ar) :: l') ++ [p]) := by
            simp only [List.cons_append]
            rw [debounceSchedule]
            simp [h1]
          rw [heq]
          exact ih htail

/-- C5: when resize events keep arriving with gaps below 250ms, only the
timer of the last event survives: the debounce schedule holds exactly one
firing, 250ms after the last event; the whole run equals a single
resizeSettled step at the width read at that firing time, which closes the
menu precisely when that width is at least 768 and the menu class is
present, and leaves the state unchanged otherwise. -/
theorem resize_debounced_closes (widthAt : Nat → Nat) (ts : List Nat) (t : Nat) (s : NavState)
    (hchain : List.Chain' (fun a b => b < a + 250) (ts ++ [t])) :
    debounceSchedule 250 ((ts ++ [t]).map (fun u => (u, ()))) = [(t + 250, ())] ∧
    navResizeRun widthAt (ts ++ [t]) s = navStep (NavEvent.resizeSettled (widthAt (t + 250))) s ∧
    (768 ≤ widthAt (t + 250) ∧ s.menuOpen = true →
      navResizeRun widthAt (ts ++ [t]) s = closeMenu s) ∧
    (¬(768 ≤ widthAt (t + 250) ∧ s.menuOpen = true) →
      navResizeRun widthAt (ts ++ [t]) s = s) := by
  have hchain2 : List.Chain' (fun x y : Nat × Unit => y.1 < x.1 + 250)
      ((ts.map (fun u => (u, ()))) ++ [(t, ())]) := by
    have h : List.Chain' (fun x y : Nat × Unit => y.1 < x.1 + 250)
        (List.map (fun u : Nat => (u, ())) (ts ++ [t])) :=
      List.chain'_map_of_chain' (fun u : Nat => (u, ())) (fun a b hab => hab) hchain
    simpa using h
  have hsched : debounceSchedule 250 ((ts ++ [t]).map (fun u => (u, ()))) = [(t + 250, ())] := by
    rw [List.map_append]
    exact debounceSchedule_dense 250 (t, ()) (ts.map (fun u => (u, ()))) hchain2
  have hrun : navResizeRun widthAt (ts ++ [t]) s =
      navStep (NavEvent.resizeSettled (widthAt (t + 250))) s := by
    unfold navResizeRun
    rw [hsched]
    rfl
  refine ⟨hsched, hrun, ?_, ?_⟩
  · intro h
    rw [hrun]
    simp [navStep, h.1, h.2]
  · intro h
    rw [hrun]
    simp only [navStep]
    rw [if_neg h]

/-- Witness for C5: three resize events at 0, 100 and 200ms with the window
at width 800 when the timer fires close the menu opened from the initial
state; with the window at width 500 they leave it open. -/
theorem resize_debounced_closes_witness :
    navResizeRun (fun _ => 800) ([0, 100] ++ [200]) (toggleMenu initState) =
        closeMenu (toggleMenu initState) ∧
      navResizeRun (fun _ => 500) ([0, 100] ++ [200]) (toggleMenu initState) =
        toggleMenu initState :=
  ⟨((resize_debounced_closes (fun _ => 800) [0, 100] 200 (toggleMenu initState)
      (by simp [List.chain'_cons])).2.2).1 (by decide),
   ((resize_debounced_closes (fun _ => 500) [0, 100] 200 (toggleMenu initState)
      (by simp [List.chain'_cons])).2.2).2 (by decide)⟩

/-- C6: when the toggle element or the list element is missing, init binds
no listener at all, and consequently no navigation event ever changes the
state — the component is a silent no-op (the model is a total function, so
no error arises). -/
theorem init_missing_elements_noop (d : PageDom)
    (h : d.hasToggle = false ∨ d.hasList = false) :
    init d = [] ∧ ∀ (e : NavEvent) (s : NavState), dispatch d e s = s := by
  have hinit : init d = [] := by
    unfold init
    rcases h with h | h <;> simp [h]
  refine ⟨hinit, ?_⟩
  intro e s
  unfold dispatch
  rw [hinit]
  rfl

/-- Witness for C6: a page with the nav and list elements but no toggle
element binds nothing, and a toggle click leaves the open state alone. -/
theorem init_missing_elements_noop_witness :
    init ⟨true, false, true, 3⟩ = [] ∧
      dispatch ⟨true, false, true, 3⟩ NavEvent.toggleClick (toggleMenu initState) =
        toggleMenu initState :=
  ⟨(init_missing_elements_noop ⟨true, false, true, 3⟩ (Or.inl rfl)).1,
   (init_missing_elements_noop ⟨true, false, true, 3⟩ (Or.inl rfl)).2
      NavEvent.toggleClick (toggleMenu initState)⟩

/-- C7 counterexample: in the fallback path with execCommand returning
false — the copy failed without throwing, since the source discards the
boolean result of execCommand — the returned promise still resolves, and
it is not a rejection; so copyToClipboard does not reject on every failed
copy in the fallback path. -/
theorem copyToClipboard_false_resolves_cex :
    (copyToClipboard ⟨false, Except.ok (), Except.ok false⟩ "hi").1 = Except.ok () ∧
      (copyToClipboard ⟨false, Except.ok (), Except.ok false⟩ "hi").1 ≠
        Except.error "copy failed" ∧
      (copyToClipboard ⟨false, Except.ok (), Except.ok false⟩ "hi").2.textareaValue =
        some "hi" :=
  ⟨rfl, by simp [copyToClipboard], rfl⟩

/-- C7 amended: with navigator.clipboard present, copyToClipboard returns
the writeText promise unchanged, so a failing write surfaces as a rejection
and a successful one as a resolution, and no textarea is created; in the
fallback path the temporary textarea holding the text is appended and
removed again on both outcomes, and the promise rejects exactly when
execCommand throws (with the thrown error): when execCommand returns a
boolean — even false, a copy failure the source discards — the promise
resolves. -/
theorem copyToClipboard_error_surfacing (env : ClipEnv) (text : String) :
    (env.clipboardAvailable = true →
      (copyToClipboard env text).1 = env.writeTextResult ∧
      (copyToClipboard env text).2 = ⟨none, false⟩) ∧
    (env.clipboardAvailable = false →
      ((copyToClipboard env text).2.textareaValue = some text ∧
        (copyToClipboard env text).2.textareaRemoved = true) ∧
      (∀ b, env.execCommandResult = Except.ok b →
        (copyToClipboard env text).1 = Except.ok ()) ∧
      (∀ err, env.execCommandResult = Except.error err →
        (copyToClipboard env text).1 = Except.error err)) := by
  constructor
  · intro h
    simp [copyToClipboard, h]
  · intro h
    cases hex : env.execCommandResult <;> simp [copyToClipboard, h, hex]

/-- Witness for C7 amended: a denied writeText rejects in the clipboard
path with no textarea; a throwing execCommand rejects in the fallback path
with the textarea appended and removed; an execCommand returning false
still resolves. -/
theorem copyToClipboard_error_surfacing_witness :
    ((copyToClipboard ⟨true, Except.error "denied", Except.ok true⟩ "hi").1 =
        Except.error "denied" ∧
      (copyToClipboard ⟨true, Except.error "denied", Except.ok true⟩ "hi").2 =
        ⟨none, false⟩) ∧
      (copyToClipboard ⟨false, Except.ok (), Except.error "boom"⟩ "hi").1 =
        Except.error "boom" ∧
      (copyToClipboard ⟨false, Except.ok (), Except.error "boom"⟩ "hi").2.textareaValue =
        some "hi" ∧
      (copyToClipboard ⟨false, Except.ok (), Except.error "boom"⟩ "hi").2.textareaRemoved =
        true ∧
      (copyToClipboard ⟨false, Except.ok (), Except.ok false⟩ "hi").1 = Except.ok () :=
  ⟨(copyToClipboard_error_surfacing ⟨true, Except.error "denied", Except.ok true⟩ "hi").1 rfl,
   ((copyToClipboard_error_surfacing ⟨false, Except.ok (), Except.error "boom"⟩ "hi").2
      rfl).2.2 "boom" rfl,
   ((copyToClipboard_error_surfacing ⟨false, Except.ok (), Except.error "boom"⟩ "hi").2
      rfl).1.1,
   ((copyToClipboard_error_surfacing ⟨false, Except.ok (), Except.error "boom"⟩ "hi").2
      rfl).1.2,
   ((copyToClipboard_error_surfacing ⟨false, Except.ok (), Except.ok false⟩ "hi").2
      rfl).2.1 false rfl⟩

/-- C8: for five calls to a debounce(fn, 100) wrapper in nondecreasing time
order spanning at most 50ms, the schedule contains exactly one firing: fn
runs once, 100ms after the last call, with the arguments of the last call,
and
the firing time is strictly after every call time, so fn never runs while
calls keep arriving. -/
theorem debounce_five_calls_once {α : Type} (t₁ t₂ t₃ t₄ t₅ : Nat) (a₁ a₂ a₃ a₄ a₅ : α)
    (h12 : t₁ ≤ t₂) (h23 : t₂ ≤ t₃) (h34 : t₃ ≤ t₄) (h45 : t₄ ≤ t₅)
    (hspan : t₅ ≤ t₁ + 50) :
    debounceSchedule 100 [(t₁, a₁), (t₂, a₂), (t₃, a₃), (t₄, a₄), (t₅, a₅)] =
        [(t₅ + 100, a₅)] ∧
      t₁ < t₅ + 100 ∧ t₂ < t₅ + 100 ∧ t₃ < t₅ + 100 ∧ t₄ < t₅ + 100 ∧ t₅ < t₅ + 100 := by
  have hchain : List.Chain' (fun x y : Nat × α => y.1 < x.1 + 100)
      ([(t₁, a₁), (t₂, a₂), (t₃, a₃), (t₄, a₄)] ++ [(t₅, a₅)]) := by
    simp only [List.cons_append, List.nil_append, List.chain'_cons, List.chain'_singleton,
      and_true]
    omega
  have hsched := debounceSchedule_dense 100 (t₅, a₅) [(t₁, a₁), (t₂, a₂), (t₃, a₃), (t₄, a₄)]
      hchain
  refine ⟨by simpa using hsched, ?_, ?_, ?_, ?_, ?_⟩ <;> omega

/-- Witness for C8: five calls at times 0, 10, 20, 30 and 40 with arguments
1 through 5 produce exactly one firing, at time 140 with argument 5. -/
theorem debounce_five_calls_once_witness :
    debounceSchedule 100 [(0, 1), (10, 2), (20, 3), (30, 4), (40, 5)] = [(140, 5)] :=
  (debounce_five_calls_once 0 10 20 30 40 1 2 3 4 5 (by decide) (by decide) (by decide)
      (by decide) (by decide)).1
